import Mathlib

/-!
Verification of the deepfake-detection pipelines (video and audio).

The definitions below are a shallow embedding of the repository's Python
sources:
  * `preprocessing.py` (video frame assembly, face cropping, prediction),
  * `backend/audio_predict.py` (temperature-scaled confidence calibration),
  * `backend/audio_preprocessing.py` (audio file validation),
  * `backend/model_utils.py` and `backend/audio_model_utils.py` (model caches).

External libraries (OpenCV decoding, `face_recognition`, torchvision
transforms, the pretrained networks) are modelled as abstract parameters;
all control flow and arithmetic of the repository's own code is embedded
faithfully.
-/

/-- A detected face location as returned by `face_recognition.face_locations`:
a `(top, right, bottom, left)` quadruple of pixel coordinates. -/
structure FaceLocation where
  top : Int
  right : Int
  bottom : Int
  left : Int

/-- The rectangle actually cropped out of a frame. -/
structure CropRect where
  top : Int
  bottom : Int
  left : Int
  right : Int

/-- The fixed pixel margin `padding = 40` of `preprocess_video`. -/
def facePadding : Int := 40

/-- The crop rectangle computed in `preprocess_video`:
`top = max(0, top - padding)`, `bottom = min(h, bottom + padding)`,
`left = max(0, left - padding)`, `right = min(w, right + padding)`. -/
def cropRect (frameHeight frameWidth : Int) (loc : FaceLocation) : CropRect :=
  { top := max 0 (loc.top - facePadding)
    bottom := min frameHeight (loc.bottom + facePadding)
    left := max 0 (loc.left - facePadding)
    right := min frameWidth (loc.right + facePadding) }

/-- Per-frame face handling of `preprocess_video`: if `face_locations` is
empty the RGB frame itself is kept, otherwise the first detected face is
cropped (with the padded, clamped rectangle).  The pixel-level crop
operation is an abstract parameter `crop`. -/
def processFrame {Frame : Type} (crop : Frame → CropRect → Frame)
    (frameHeight frameWidth : Int) (faceLocations : List FaceLocation)
    (rgbFrame : Frame) : Frame :=
  match faceLocations with
  | [] => rgbFrame
  | loc :: _ => crop rgbFrame (cropRect frameHeight frameWidth loc)

/-- The padding loop of `preprocess_video`: while the processed list is
shorter than `sequence_length`, append the last processed frame (or a zero
frame when no frame was decoded at all). -/
def padFrames {T : Type} (seqLen : Nat) (zeroFrame : T) (l : List T) : List T :=
  if l.length < seqLen then
    l ++ List.replicate (seqLen - l.length) ((l.getLast?).getD zeroFrame)
  else l

/-- Frame assembly of `preprocess_video`: transform the first
`min(sequence_length, len(frames))` decoded frames, pad with the last
transformed frame up to `sequence_length`, and keep the first
`sequence_length` entries.  `transform` stands for the per-frame pipeline
(BGR→RGB conversion, face cropping, torchvision transforms). -/
def preprocessVideoFrames {Frame TF : Type} (transform : Frame → TF)
    (zeroFrame : TF) (seqLen : Nat) (frames : List Frame) : List TF :=
  (padFrames seqLen zeroFrame ((frames.take seqLen).map transform)).take seqLen

/-- The fixed temperature constant `TEMPERATURE = 3.0` of `predict_audio`. -/
noncomputable def TEMPERATURE : ℝ := 3.0

/-- The clamping of a raw probability in `predict_audio`:
`max(min(score, 0.9999999), 0.0000001)`. -/
noncomputable def clampScore (x : ℝ) : ℝ :=
  max (min x 0.9999999) 0.0000001

/-- The temperature-scaled score pair `(scaled_real, scaled_fake)` exactly
as `predict_audio` computes it: clamp both raw scores, take `log`, divide
by the temperature, subtract the maximum of the two scaled logits,
exponentiate and renormalize. -/
noncomputable def scaledScores (T r f : ℝ) : ℝ × ℝ :=
  let rc := clampScore r
  let fc := clampScore f
  let rl := Real.log rc / T
  let fl := Real.log fc / T
  let m := max rl fl
  let re := Real.exp (rl - m)
  let fe := Real.exp (fl - m)
  (re / (re + fe), fe / (re + fe))

/-- Plain two-element softmax (no max-shift). -/
noncomputable def softmaxPair (x y : ℝ) : ℝ × ℝ :=
  (Real.exp x / (Real.exp x + Real.exp y),
   Real.exp y / (Real.exp x + Real.exp y))

/-- The calibration the code actually performs, written without the
numerically motivated max-shift: softmax of the temperature-divided
logarithms of the clamped scores. -/
noncomputable def logProbCalibration (T r f : ℝ) : ℝ × ℝ :=
  softmaxPair (Real.log (clampScore r) / T) (Real.log (clampScore f) / T)

/-- Modelled from the spec: the calibration as the specification words it,
`softmax(log-odds(clamped scores) / T)`, where the log-odds of a class
with clamped probability `p` is `log (p / (1 - p))`. -/
noncomputable def specScaledScores (T r f : ℝ) : ℝ × ℝ :=
  let rc := clampScore r
  let fc := clampScore f
  softmaxPair (Real.log (rc / (1 - rc)) / T) (Real.log (fc / (1 - fc)) / T)

/-- Two-class softmax applied by `predict` (`torch.nn.Softmax(dim=1)` on a
two-logit row). -/
noncomputable def softmax2 (l0 l1 : ℝ) : ℝ × ℝ :=
  (Real.exp l0 / (Real.exp l0 + Real.exp l1),
   Real.exp l1 / (Real.exp l0 + Real.exp l1))

open Classical in
/-- The `predict` function of `preprocessing.py` on the two logits of the
forward pass: softmax the logits, take `torch.max` over the row (which
returns the first maximal index, hence index 0 on a tie), and report the
softmax probability of the predicted class times 100. -/
noncomputable def predictVideo (l0 l1 : ℝ) : ℕ × ℝ :=
  let p := softmax2 l0 l1
  if p.1 < p.2 then (1, p.2 * 100) else (0, p.1 * 100)

/-- `SUPPORTED_EXTENSIONS` of `audio_preprocessing.py`. -/
def SUPPORTED_EXTENSIONS : List String :=
  [".wav", ".mp3", ".flac", ".m4a", ".ogg", ".wma", ".aac"]

/-- `SUPPORTED_MIME_TYPES` of `audio_preprocessing.py`. -/
def SUPPORTED_MIME_TYPES : List String :=
  ["audio/wav", "audio/x-wav", "audio/wave",
   "audio/mpeg", "audio/mp3",
   "audio/flac", "audio/x-flac",
   "audio/mp4", "audio/x-m4a", "audio/m4a",
   "audio/ogg", "audio/vorbis",
   "audio/x-ms-wma",
   "audio/aac"]

/-- Python's `str.lower()`, modelled character by character. -/
def lowerStr (s : String) : String :=
  ⟨s.data.map Char.toLower⟩

/-- Python's `str.strip()`: drop leading and trailing whitespace. -/
def stripStr (s : String) : String :=
  ⟨(((s.data.dropWhile Char.isWhitespace).reverse).dropWhile
      Char.isWhitespace).reverse⟩

/-- Python's `s.split(';')[0]`: the longest initial segment without a
semicolon. -/
def upToSemicolon (s : String) : String :=
  ⟨s.data.takeWhile (fun c => c ≠ ';')⟩

/-- Python's `s.startswith(p)`. -/
def startsWithStr (p s : String) : Bool :=
  p.data.isPrefixOf s.data

/-- Base MIME type as computed by `validate_audio_file`:
`content_type.split(';')[0].strip().lower()`. -/
def baseMimeType (ct : String) : String :=
  lowerStr (stripStr (upToSemicolon ct))

instance : DecidableEq (Except String Unit) := fun a b =>
  match a, b with
  | Except.ok (), Except.ok () => isTrue rfl
  | Except.error x, Except.error y =>
    if h : x = y then isTrue (h ▸ rfl)
    else isFalse (fun he => h (by cases he; rfl))
  | Except.ok (), Except.error _ => isFalse (fun he => Except.noConfusion he)
  | Except.error _, Except.ok () => isFalse (fun he => Except.noConfusion he)

/-- `validate_audio_file` of `audio_preprocessing.py`.  `filePresent`
models `os.path.exists`, `fileSize` models `os.path.getsize`, `ext` is the
extension produced by `os.path.splitext`, and `contentType` the optional
upload MIME type.  Note that Python's `if content_type:` skips the MIME
check both for `None` and for the empty string. -/
def validate_audio_file (filePresent : Bool) (fileSize : Nat) (ext : String)
    (contentType : Option String) : Except String Unit :=
  if filePresent = false then Except.error "Audio file not found"
  else if fileSize = 0 then Except.error "Audio file is empty"
  else if 50 * 1024 * 1024 < fileSize then
    Except.error "Audio file too large (max 50MB)"
  else if lowerStr ext ≠ "" ∧ lowerStr ext ∉ SUPPORTED_EXTENSIONS then
    Except.error "Unsupported audio format"
  else
    match contentType with
    | none => Except.ok ()
    | some ct =>
      if ct ≠ "" then
        if baseMimeType ct ∉ SUPPORTED_MIME_TYPES ∧
            startsWithStr "audio/" (baseMimeType ct) = false then
          Except.error "Invalid content type"
        else Except.ok ()
      else Except.ok ()

/-- The cache key of `load_model`: `f"{sequence_length}_{device}"`. -/
def cacheKey (sequenceLength : Nat) (device : String) : String :=
  toString sequenceLength ++ "_" ++ device

/-- `load_model` of `model_utils.py` with the model cache passed as
explicit state.  `loader` abstracts `get_accurate_model` together with
model construction and `torch.load` (returning `none` when no artifact is
found or loading fails).  On a cache hit the cached model is returned and
the cache is untouched; on a successful load the model is stored under its
key. -/
def load_model {M : Type} (loader : Nat → String → Option M)
    (sequenceLength : Nat) (device : String)
    (cache : List (String × M)) : Option M × List (String × M) :=
  match cache.lookup (cacheKey sequenceLength device) with
  | some m => (some m, cache)
  | none =>
    match loader sequenceLength device with
    | none => (none, cache)
    | some m => (some m, (cacheKey sequenceLength device, m) :: cache)

/-- `load_audio_pipeline` of `audio_model_utils.py` with the global
`_audio_pipeline` cache passed as explicit state.  `loader` abstracts the
HuggingFace `pipeline(...)` call (`none` models the exception path, which
the code re-raises as a `RuntimeError`). -/
def load_audio_pipeline {P : Type} (loader : Option P)
    (cache : Option P) : Except String P × Option P :=
  match cache with
  | some p => (Except.ok p, some p)
  | none =>
    match loader with
    | some p => (Except.ok p, some p)
    | none => (Except.error "Failed to load audio classification model", none)

/-- Claim C1: for a video with `0 < n < sequence_length` decodable frames,
`preprocess_video` returns exactly `sequence_length` frames, and every
frame at a position `n ≤ i < sequence_length` equals the transformed last
real frame (the one at position `n - 1`). -/
theorem preprocess_video_pads_with_last_frame {Frame TF : Type}
    (transform : Frame → TF) (zeroFrame : TF) (seqLen : Nat)
    (frames : List Frame) (hpos : 0 < frames.length)
    (hlt : frames.length < seqLen) :
    (preprocessVideoFrames transform zeroFrame seqLen frames).length = seqLen ∧
    ∀ i, frames.length ≤ i → i < seqLen →
      (preprocessVideoFrames transform zeroFrame seqLen frames)[i]? =
        (frames[frames.length - 1]?).map transform := by
  have htake : frames.take seqLen = frames :=
    List.take_of_length_le (le_of_lt hlt)
  have hmaplen : (frames.map transform).length = frames.length :=
    List.length_map _ _
  have hcond : (frames.map transform).length < seqLen := by
    rw [hmaplen]; exact hlt
  have hpad : padFrames seqLen zeroFrame (frames.map transform) =
      frames.map transform ++
        List.replicate (seqLen - (frames.map transform).length)
          (((frames.map transform).getLast?).getD zeroFrame) := by
    unfold padFrames
    rw [if_pos hcond]
  have hlenall :
      (frames.map transform ++
        List.replicate (seqLen - (frames.map transform).length)
          (((frames.map transform).getLast?).getD zeroFrame)).length = seqLen := by
    rw [List.length_append, List.length_replicate, hmaplen]
    omega
  have hres : preprocessVideoFrames transform zeroFrame seqLen frames =
      frames.map transform ++
        List.replicate (seqLen - (frames.map transform).length)
          (((frames.map transform).getLast?).getD zeroFrame) := by
    unfold preprocessVideoFrames
    rw [htake, hpad, List.take_of_length_le (le_of_eq hlenall)]
  constructor
  · rw [hres]; exact hlenall
  · intro i hni hiseq
    rw [hres]
    have hlast : (frames.map transform).getLast? =
        (frames.getLast?).map transform := List.getLast?_map _ _
    have hgl : frames.getLast? = frames[frames.length - 1]? := by
      rw [List.getLast?_eq_getElem?]
    rw [List.getElem?_append_right (by omega)]
    rw [List.getElem?_replicate]
    rw [if_pos (by omega)]
    rw [hlast, hgl]
    rcases hx : frames[frames.length - 1]? with _ | x
    · exfalso
      have : frames.length - 1 < frames.length := by omega
      rw [List.getElem?_eq_none_iff] at hx
      omega
    · simp

/-- Witness for C1 at a concrete input: one decoded frame, requested
sequence length 2. -/
theorem preprocess_video_pads_with_last_frame_witness :
    (preprocessVideoFrames Nat.succ 0 2 [5]).length = 2 ∧
    (preprocessVideoFrames Nat.succ 0 2 [5])[1]? = some 6 := by
  have h := preprocess_video_pads_with_last_frame Nat.succ 0 2 [5]
    (by decide) (by decide)
  refine ⟨h.1, ?_⟩
  have h2 := h.2 1 (by decide) (by decide)
  simpa using h2

/-- Claim C4: when face detection returns no face location, the frame
handed to the transform pipeline is the unmodified full frame; when at
least one face is detected, the first detected face region is cropped. -/
theorem no_face_uses_full_frame {Frame : Type}
    (crop : Frame → CropRect → Frame) (H W : Int) (rgbFrame : Frame) :
    processFrame crop H W [] rgbFrame = rgbFrame ∧
    ∀ loc rest, processFrame crop H W (loc :: rest) rgbFrame =
      crop rgbFrame (cropRect H W loc) :=
  ⟨rfl, fun _ _ => rfl⟩

/-- Claim C5: for a frame with a detected face, the crop is the detected
rectangle enlarged by the fixed 40-pixel margin on each side whenever that
stays inside the frame, and the resulting coordinates never leave the
frame bounds. -/
theorem face_crop_margin_and_bounds {Frame : Type}
    (crop : Frame → CropRect → Frame) (H W : Int) (loc : FaceLocation)
    (rgbFrame : Frame) (rest : List FaceLocation) :
    processFrame crop H W (loc :: rest) rgbFrame =
      crop rgbFrame (cropRect H W loc) ∧
    0 ≤ (cropRect H W loc).top ∧ (cropRect H W loc).bottom ≤ H ∧
    0 ≤ (cropRect H W loc).left ∧ (cropRect H W loc).right ≤ W ∧
    (facePadding ≤ loc.top → (cropRect H W loc).top = loc.top - facePadding) ∧
    (loc.bottom + facePadding ≤ H →
      (cropRect H W loc).bottom = loc.bottom + facePadding) ∧
    (facePadding ≤ loc.left →
      (cropRect H W loc).left = loc.left - facePadding) ∧
    (loc.right + facePadding ≤ W →
      (cropRect H W loc).right = loc.right + facePadding) := by
  refine ⟨rfl, le_max_left _ _, min_le_left _ _, le_max_left _ _,
    min_le_left _ _, ?_, ?_, ?_, ?_⟩
  · intro h
    exact max_eq_right (by omega)
  · intro h
    exact min_eq_right h
  · intro h
    exact max_eq_right (by omega)
  · intro h
    exact min_eq_right h

/-- Witness for C5 at a concrete face location inside a 200×300 frame. -/
theorem face_crop_margin_and_bounds_witness :
    (cropRect 200 300 ⟨50, 100, 120, 60⟩).top = 50 - facePadding ∧
    (cropRect 200 300 ⟨50, 100, 120, 60⟩).bottom = 120 + facePadding ∧
    (cropRect 200 300 ⟨50, 100, 120, 60⟩).left = 60 - facePadding ∧
    (cropRect 200 300 ⟨50, 100, 120, 60⟩).right = 100 + facePadding := by
  have h := face_crop_margin_and_bounds (fun (f : Unit) _ => f) 200 300
    ⟨50, 100, 120, 60⟩ () []
  exact ⟨h.2.2.2.2.2.1 (by decide), h.2.2.2.2.2.2.1 (by decide),
    h.2.2.2.2.2.2.2.1 (by decide), h.2.2.2.2.2.2.2.2 (by decide)⟩

lemma clampScore_pos (x : ℝ) : 0 < clampScore x :=
  lt_of_lt_of_le (by norm_num) (le_max_right _ _)

lemma clampScore_le_high (x : ℝ) : clampScore x ≤ 0.9999999 :=
  max_le (min_le_right _ _) (by norm_num)

lemma clampScore_le_self {x : ℝ} (hx : (0.0000001 : ℝ) ≤ x) :
    clampScore x ≤ x :=
  max_le (min_le_left _ _) hx

lemma half_lt_clampScore {x : ℝ} (hx : (1 : ℝ) / 2 < x) :
    (1 : ℝ) / 2 < clampScore x :=
  lt_of_lt_of_le (lt_min hx (by norm_num)) (le_max_left _ _)

lemma clampScore_of_mem {x : ℝ} (h1 : (0.0000001 : ℝ) ≤ x)
    (h2 : x ≤ (0.9999999 : ℝ)) : clampScore x = x := by
  unfold clampScore
  rw [min_eq_left h2, max_eq_left h1]

lemma clampScore_one_sub (x : ℝ) : clampScore (1 - x) = 1 - clampScore x := by
  unfold clampScore
  rcases le_total x (0.0000001 : ℝ) with h1 | h1 <;>
    rcases le_total x (0.9999999 : ℝ) with h2 | h2 <;>
    rw [min_def, max_def, min_def, max_def] <;>
    split_ifs <;> norm_num <;> linarith

lemma softmax_shift_fst (x y m : ℝ) :
    Real.exp (x - m) / (Real.exp (x - m) + Real.exp (y - m)) =
      Real.exp x / (Real.exp x + Real.exp y) := by
  have h1 : (0 : ℝ) < Real.exp (x - m) + Real.exp (y - m) := by positivity
  have h2 : (0 : ℝ) < Real.exp x + Real.exp y := by positivity
  rw [div_eq_div_iff h1.ne' h2.ne', Real.exp_sub, Real.exp_sub]
  have h3 : Real.exp m ≠ 0 := (Real.exp_pos m).ne'
  field_simp

lemma softmax_shift_snd (x y m : ℝ) :
    Real.exp (y - m) / (Real.exp (x - m) + Real.exp (y - m)) =
      Real.exp y / (Real.exp x + Real.exp y) := by
  have h1 : (0 : ℝ) < Real.exp (x - m) + Real.exp (y - m) := by positivity
  have h2 : (0 : ℝ) < Real.exp x + Real.exp y := by positivity
  rw [div_eq_div_iff h1.ne' h2.ne', Real.exp_sub, Real.exp_sub]
  have h3 : Real.exp m ≠ 0 := (Real.exp_pos m).ne'
  field_simp

lemma scaledScores_eq_softmaxPair (T r f : ℝ) :
    scaledScores T r f = logProbCalibration T r f := by
  unfold scaledScores logProbCalibration softmaxPair
  exact Prod.ext (softmax_shift_fst _ _ _) (softmax_shift_snd _ _ _)

lemma exp_log_div {c : ℝ} (hc : 0 < c) (T : ℝ) :
    Real.exp (Real.log c / T) = c ^ ((1 : ℝ) / T) := by
  rw [Real.rpow_def_of_pos hc, mul_one_div]

lemma scaledScores_fst_rpow (T r f : ℝ) :
    (scaledScores T r f).1 =
      clampScore r ^ ((1 : ℝ) / T) /
        (clampScore r ^ ((1 : ℝ) / T) + clampScore f ^ ((1 : ℝ) / T)) := by
  have h : (scaledScores T r f).1 =
      Real.exp (Real.log (clampScore r) / T) /
        (Real.exp (Real.log (clampScore r) / T) +
          Real.exp (Real.log (clampScore f) / T)) := by
    unfold scaledScores
    exact softmax_shift_fst _ _ _
  rw [h, exp_log_div (clampScore_pos r), exp_log_div (clampScore_pos f)]

lemma winner_scaled_le {c : ℝ} (a : ℝ) (hc_half : (1 : ℝ) / 2 < c)
    (hc_lt : c < 1) (ha0 : 0 < a) (ha1 : a ≤ 1) :
    c ^ a / (c ^ a + (1 - c) ^ a) ≤ c := by
  have hc_pos : (0 : ℝ) < c := by linarith
  have hd_pos : (0 : ℝ) < 1 - c := by linarith
  have hdc : 1 - c ≤ c := by linarith
  have hA : (0 : ℝ) < c ^ a := Real.rpow_pos_of_pos hc_pos a
  have hB : (0 : ℝ) < (1 - c) ^ a := Real.rpow_pos_of_pos hd_pos a
  have hsplit : a + (1 - a) = 1 := by ring
  have hc_split : c ^ a * c ^ (1 - a) = c := by
    rw [← Real.rpow_add hc_pos, hsplit, Real.rpow_one]
  have hd_split : (1 - c) ^ a * (1 - c) ^ (1 - a) = 1 - c := by
    rw [← Real.rpow_add hd_pos, hsplit, Real.rpow_one]
  have hexp : (1 - c) ^ (1 - a) ≤ c ^ (1 - a) :=
    Real.rpow_le_rpow hd_pos.le hdc (by linarith)
  have key : c ^ a * (1 - c) ≤ c * (1 - c) ^ a := by
    calc c ^ a * (1 - c) = (c ^ a * (1 - c) ^ a) * (1 - c) ^ (1 - a) := by
          rw [mul_assoc, hd_split]
      _ ≤ (c ^ a * (1 - c) ^ a) * c ^ (1 - a) :=
          mul_le_mul_of_nonneg_left hexp (by positivity)
      _ = c * (1 - c) ^ a := by
          rw [show c ^ a * (1 - c) ^ a * c ^ (1 - a) =
            (c ^ a * c ^ (1 - a)) * (1 - c) ^ a by ring, hc_split]
  rw [div_le_iff₀ (by positivity)]
  nlinarith [key]

lemma scaledScores_swap (T r f : ℝ) :
    (scaledScores T r f).2 = (scaledScores T f r).1 := by
  unfold scaledScores
  dsimp only
  rw [max_comm (Real.log (clampScore r) / T) (Real.log (clampScore f) / T),
    add_comm (Real.exp (Real.log (clampScore r) / T -
      max (Real.log (clampScore f) / T) (Real.log (clampScore r) / T)))]

lemma scaled_fst_le_of_winner (T r f : ℝ) (hr : 0 ≤ r) (hf : 0 ≤ f)
    (hsum : r + f = 1) (hT : 1 < T) (hw : f < r) :
    (scaledScores T r f).1 ≤ r := by
  have hr_half : (1 : ℝ) / 2 < r := by linarith
  have hfr : f = 1 - r := by linarith
  have hc_half := half_lt_clampScore hr_half
  have hc_lt : clampScore r < 1 :=
    lt_of_le_of_lt (clampScore_le_high r) (by norm_num)
  have hcf : clampScore f = 1 - clampScore r := by
    rw [hfr, clampScore_one_sub]
  have hcr_le : clampScore r ≤ r := clampScore_le_self (by linarith)
  have ha0 : (0 : ℝ) < 1 / T := by positivity
  have ha1 : (1 : ℝ) / T ≤ 1 := by
    rw [div_le_one (by linarith)]
    linarith
  rw [scaledScores_fst_rpow, hcf]
  exact le_trans (winner_scaled_le (1 / T) hc_half hc_lt ha0 ha1) hcr_le

/-- Claim C2: for raw class probabilities summing to 1 and any temperature
strictly greater than 1 (the code fixes `TEMPERATURE = 3.0`), the
temperature-scaled probability `predict_audio` computes for the winning
class is at most that class's raw probability. -/
theorem audio_temperature_scaling_shrinks_winner (T r f : ℝ) (hr : 0 ≤ r)
    (hf : 0 ≤ f) (hsum : r + f = 1) (hT : 1 < T) :
    (f < r → (scaledScores T r f).1 ≤ r) ∧
    (r < f → (scaledScores T r f).2 ≤ f) := by
  constructor
  · intro hw
    exact scaled_fst_le_of_winner T r f hr hf hsum hT hw
  · intro hw
    rw [scaledScores_swap]
    exact scaled_fst_le_of_winner T f r hf hr (by linarith) hT hw

/-- Witness for C2 at the concrete input `(real, fake) = (3/4, 1/4)` and
the code's temperature 3. -/
theorem audio_temperature_scaling_shrinks_winner_witness :
    (scaledScores 3 ((3 : ℝ) / 4) ((1 : ℝ) / 4)).1 ≤ (3 : ℝ) / 4 :=
  (audio_temperature_scaling_shrinks_winner 3 ((3 : ℝ) / 4) ((1 : ℝ) / 4)
    (by norm_num) (by norm_num) (by norm_num) (by norm_num)).1 (by norm_num)

lemma TEMPERATURE_eq : TEMPERATURE = 3 := by norm_num [TEMPERATURE]

lemma softmaxPair_fst (x y : ℝ) :
    (softmaxPair x y).1 = 1 / (1 + Real.exp (y - x)) := by
  unfold softmaxPair
  dsimp only
  rw [div_eq_div_iff (by positivity) (by positivity), Real.exp_sub]
  have h3 : Real.exp x ≠ 0 := (Real.exp_pos x).ne'
  field_simp

/-- Claim C3 counterexample: at raw scores `(3/4, 1/4)` the scores the
code computes differ from `softmax(log-odds(clamped scores) / 3)` as the
specification words the calibration. -/
theorem audio_calibration_not_logodds_softmax :
    scaledScores TEMPERATURE ((3 : ℝ) / 4) ((1 : ℝ) / 4) ≠
      specScaledScores TEMPERATURE ((3 : ℝ) / 4) ((1 : ℝ) / 4) := by
  have hc34 : clampScore ((3 : ℝ) / 4) = (3 : ℝ) / 4 :=
    clampScore_of_mem (by norm_num) (by norm_num)
  have hc14 : clampScore ((1 : ℝ) / 4) = (1 : ℝ) / 4 :=
    clampScore_of_mem (by norm_num) (by norm_num)
  have hL : (0 : ℝ) < Real.log 3 := Real.log_pos (by norm_num)
  have h1 : (scaledScores TEMPERATURE ((3 : ℝ) / 4) ((1 : ℝ) / 4)).1 =
      1 / (1 + Real.exp (-Real.log 3 / 3)) := by
    rw [scaledScores_eq_softmaxPair]
    unfold logProbCalibration
    rw [hc34, hc14, TEMPERATURE_eq, softmaxPair_fst]
    have harg : Real.log ((1 : ℝ) / 4) / 3 - Real.log ((3 : ℝ) / 4) / 3 =
        -Real.log 3 / 3 := by
      have e1 : ((1 : ℝ) / 4) / ((3 : ℝ) / 4) = ((3 : ℝ))⁻¹ := by norm_num
      rw [div_sub_div_same, ← Real.log_div (by norm_num) (by norm_num), e1,
        Real.log_inv]
    rw [harg]
  have h2 : (specScaledScores TEMPERATURE ((3 : ℝ) / 4) ((1 : ℝ) / 4)).1 =
      1 / (1 + Real.exp (-(2 * Real.log 3) / 3)) := by
    unfold specScaledScores
    dsimp only
    rw [hc34, hc14, TEMPERATURE_eq]
    have e2 : ((3 : ℝ) / 4) / (1 - (3 : ℝ) / 4) = (3 : ℝ) := by norm_num
    have e3 : ((1 : ℝ) / 4) / (1 - (1 : ℝ) / 4) = ((3 : ℝ))⁻¹ := by norm_num
    rw [e2, e3, softmaxPair_fst, Real.log_inv]
    have harg : -Real.log 3 / 3 - Real.log 3 / 3 = -(2 * Real.log 3) / 3 := by
      ring
    rw [harg]
  intro heq
  have h := congrArg Prod.fst heq
  rw [h1, h2] at h
  rw [one_div, one_div, inv_inj] at h
  have h' : Real.exp (-Real.log 3 / 3) = Real.exp (-(2 * Real.log 3) / 3) := by
    linarith
  rw [Real.exp_eq_exp] at h'
  linarith

/-- Claim C3 (amended): the reported scaled scores equal the softmax of
the temperature-divided logarithms of the clamped raw probabilities
(equivalently, the winning-class score is the logistic function of the
log-odds divided by the temperature), not the softmax of the log-odds
divided by the temperature. -/
theorem audio_calibration_formula (T r f : ℝ) :
    scaledScores T r f = logProbCalibration T r f :=
  scaledScores_eq_softmaxPair T r f

lemma div_add_div_self_eq_one {a b : ℝ} (ha : 0 < a) (hb : 0 < b) :
    a / (a + b) + b / (a + b) = 1 := by
  rw [div_add_div_same, div_self (by positivity)]

lemma scaledScores_sum (T r f : ℝ) :
    (scaledScores T r f).1 + (scaledScores T r f).2 = 1 := by
  unfold scaledScores
  dsimp only
  exact div_add_div_self_eq_one (Real.exp_pos _) (Real.exp_pos _)

lemma scaledScores_nonneg (T r f : ℝ) :
    0 ≤ (scaledScores T r f).1 ∧ 0 ≤ (scaledScores T r f).2 := by
  unfold scaledScores
  dsimp only
  constructor <;> positivity

lemma scaledScores_le_iff (T r f : ℝ) (hT : 0 < T) :
    (scaledScores T r f).1 ≤ (scaledScores T r f).2 ↔
      clampScore r ≤ clampScore f := by
  unfold scaledScores
  dsimp only
  rw [div_le_div_right (by positivity), Real.exp_le_exp,
    sub_le_sub_iff_right, div_le_div_right hT,
    Real.log_le_log_iff (clampScore_pos r) (clampScore_pos f)]

/-- Claim C9: the two temperature-scaled scores sum to 1, their order is
the order of the clamped raw scores, and the confidence reported for the
predicted label (100 times the scaled score of the class with the larger
clamped raw score, or of `fake` on a tie) lies between 50 and 100. -/
theorem audio_scaled_sum_order_bounds (r f : ℝ) :
    (scaledScores TEMPERATURE r f).1 + (scaledScores TEMPERATURE r f).2 = 1 ∧
    (clampScore r ≤ clampScore f ↔
      (scaledScores TEMPERATURE r f).1 ≤ (scaledScores TEMPERATURE r f).2) ∧
    (clampScore f < clampScore r →
      50 ≤ 100 * (scaledScores TEMPERATURE r f).1 ∧
        100 * (scaledScores TEMPERATURE r f).1 ≤ 100) ∧
    (¬ clampScore f < clampScore r →
      50 ≤ 100 * (scaledScores TEMPERATURE r f).2 ∧
        100 * (scaledScores TEMPERATURE r f).2 ≤ 100) := by
  have hT : (0 : ℝ) < TEMPERATURE := by norm_num [TEMPERATURE]
  have hsum := scaledScores_sum TEMPERATURE r f
  have hiff := scaledScores_le_iff TEMPERATURE r f hT
  have hnn := scaledScores_nonneg TEMPERATURE r f
  refine ⟨hsum, hiff.symm, ?_, ?_⟩
  · intro hlt
    have h2 : ¬ ((scaledScores TEMPERATURE r f).1 ≤
        (scaledScores TEMPERATURE r f).2) := by
      rw [hiff]
      exact not_le.mpr hlt
    have h3 := not_le.mp h2
    constructor <;> linarith [hnn.1, hnn.2]
  · intro hge
    have h2 := hiff.mpr (not_lt.mp hge)
    constructor <;> linarith [hnn.1, hnn.2]

/-- Witness for C9 at the concrete raw scores `(3/4, 1/4)`. -/
theorem audio_scaled_sum_order_bounds_witness :
    50 ≤ 100 * (scaledScores TEMPERATURE ((3 : ℝ) / 4) ((1 : ℝ) / 4)).1 ∧
      100 * (scaledScores TEMPERATURE ((3 : ℝ) / 4) ((1 : ℝ) / 4)).1 ≤ 100 :=
  (audio_scaled_sum_order_bounds ((3 : ℝ) / 4) ((1 : ℝ) / 4)).2.2.1
    (by rw [clampScore_of_mem (by norm_num) (by norm_num),
        clampScore_of_mem (by norm_num) (by norm_num)]; norm_num)

open Classical in
/-- Claim C6: `predict` returns as its prediction the argmax of the
two-class softmax of the logits, which is the argmax of the logits
themselves (index 0 on a tie, as `torch.max` returns the first maximal
index), and as confidence the softmax probability of the predicted class
times 100. -/
theorem predict_is_argmax_with_confidence (l0 l1 : ℝ) :
    ((softmax2 l0 l1).1 < (softmax2 l0 l1).2 ↔ l0 < l1) ∧
    (predictVideo l0 l1).1 = (if l0 < l1 then 1 else 0) ∧
    (predictVideo l0 l1).2 =
      100 * (if l0 < l1 then (softmax2 l0 l1).2 else (softmax2 l0 l1).1) := by
  have hkey : (softmax2 l0 l1).1 < (softmax2 l0 l1).2 ↔ l0 < l1 := by
    unfold softmax2
    dsimp only
    rw [div_lt_div_right (by positivity), Real.exp_lt_exp]
  refine ⟨hkey, ?_, ?_⟩
  · unfold predictVideo
    dsimp only
    split_ifs with h1 h2 h2 <;> simp_all
  · unfold predictVideo
    dsimp only
    split_ifs with h1 h2 h2
    · ring
    · exact absurd (hkey.mp h1) h2
    · exact absurd (hkey.mpr h2) h1
    · ring

/-- Claim C7 counterexample: an upload with a valid extension and size but
with the empty string as its content type is accepted by
`validate_audio_file`, although the empty base type is neither a supported
MIME type nor prefixed with `audio/` — Python's `if content_type:` treats
the empty string like a missing content type. -/
theorem validate_audio_file_empty_content_type_gap :
    validate_audio_file true 1 ".wav" (some "") = Except.ok () ∧
    baseMimeType "" ∉ SUPPORTED_MIME_TYPES ∧
    startsWithStr "audio/" (baseMimeType "") = false := by
  refine ⟨by decide, ?_, by decide⟩
  decide

/-- Claim C7 (amended): `validate_audio_file` raises exactly when the file
is missing, empty, over 50MB, has a non-empty extension whose lowercase
form is not in the supported set, or a non-empty `content_type` is
provided whose base type is neither in the supported MIME set nor prefixed
with `audio/`. -/
theorem validate_audio_file_error_iff (pres : Bool) (size : Nat)
    (ext : String) (ct : Option String) :
    (∃ msg, validate_audio_file pres size ext ct = Except.error msg) ↔
      (pres = false ∨ size = 0 ∨ 50 * 1024 * 1024 < size ∨
        (lowerStr ext ≠ "" ∧ lowerStr ext ∉ SUPPORTED_EXTENSIONS) ∨
        (∃ s, ct = some s ∧ s ≠ "" ∧ baseMimeType s ∉ SUPPORTED_MIME_TYPES ∧
          startsWithStr "audio/" (baseMimeType s) = false)) := by
  unfold validate_audio_file
  rcases ct with _ | s
  · split_ifs with h1 h2 h3 h4 <;> simp_all
  · dsimp only
    split_ifs with h1 h2 h3 h4 h5 h6 <;> simp_all

/-- Claim C10: an extensionless file of valid size (and no separate
content type) passes `validate_audio_file`, because the extension check is
skipped for the empty extension, even though the empty extension is not in
the supported set. -/
theorem extensionless_file_accepted (size : Nat) (h0 : size ≠ 0)
    (hle : size ≤ 50 * 1024 * 1024) :
    validate_audio_file true size "" none = Except.ok () ∧
    "" ∉ SUPPORTED_EXTENSIONS := by
  have h3 : ¬ (50 * 1024 * 1024 < size) := by omega
  constructor
  · unfold validate_audio_file
    rw [if_neg (by decide), if_neg h0, if_neg h3, if_neg (by decide)]
  · decide

/-- Witness for C10 at the concrete size 5. -/
theorem extensionless_file_accepted_witness :
    validate_audio_file true 5 "" none = Except.ok () ∧
    "" ∉ SUPPORTED_EXTENSIONS :=
  extensionless_file_accepted 5 (by decide) (by decide)

/-- Claim C8: each cache keeps at most one loaded instance per
configuration.  After a successful `load_model` for a given
`(sequence_length, device)` pair, any later call with the same pair
returns the identical cached model and leaves the cache unchanged without
invoking the loader (the second call may use an arbitrary loader);
likewise, after `load_audio_pipeline` succeeds once, every later call
returns the same cached pipeline object. -/
theorem model_caches_single_instance (M P : Type) :
    (∀ (loader loader2 : Nat → String → Option M) (seq : Nat) (dev : String)
        (cache : List (String × M)) (m : M) (c' : List (String × M)),
        load_model loader seq dev cache = (some m, c') →
        load_model loader2 seq dev c' = (some m, c')) ∧
    (∀ (al al2 : Option P) (acache : Option P) (p : P) (c' : Option P),
        load_audio_pipeline al acache = (Except.ok p, c') →
        load_audio_pipeline al2 c' = (Except.ok p, c')) := by
  constructor
  · intro loader loader2 seq dev cache m c' h
    unfold load_model at h ⊢
    rcases hl : cache.lookup (cacheKey seq dev) with _ | m0 <;> rw [hl] at h
    · rcases hld : loader seq dev with _ | m1 <;> rw [hld] at h
      · simp at h
      · simp only [Prod.mk.injEq, Option.some.injEq] at h
        obtain ⟨hm, hc⟩ := h
        subst hm
        subst hc
        simp [List.lookup]
    · simp only [Prod.mk.injEq, Option.some.injEq] at h
      obtain ⟨hm, hc⟩ := h
      subst hm
      subst hc
      rw [hl]
  · intro al al2 acache p c' h
    unfold load_audio_pipeline at h ⊢
    rcases acache with _ | p0
    · rcases al with _ | p1
      · simp at h
      · simp only [Prod.mk.injEq, Except.ok.injEq] at h
        obtain ⟨hp, hc⟩ := h
        subst hp
        subst hc
        rfl
    · simp only [Prod.mk.injEq, Except.ok.injEq] at h
      obtain ⟨hp, hc⟩ := h
      subst hp
      subst hc
      rfl

/-- Witness for C8: a concrete first load populates each cache and a
second call with a failing loader still returns the cached object. -/
theorem model_caches_single_instance_witness :
    load_model (fun _ _ => (none : Option Nat)) 10 "cpu"
        [(cacheKey 10 "cpu", 7)] = (some 7, [(cacheKey 10 "cpu", 7)]) ∧
    load_audio_pipeline (none : Option Nat) (some 5) =
        (Except.ok 5, some 5) :=
  ⟨(model_caches_single_instance Nat Nat).1 (fun _ _ => some 7)
      (fun _ _ => none) 10 "cpu" [] 7 [(cacheKey 10 "cpu", 7)] rfl,
    (model_caches_single_instance Nat Nat).2 (some 5) none none 5 (some 5)
      rfl⟩
